import Mathlib

/-!
Shallow embedding of the `UnitConverter` class from `unit_converter.cpp` /
`unit_converter.h`.

Doubles are modelled as exact rationals (`ℚ`); `std::string::find(pat) !=
npos` is modelled by the executable substring test `containsSub`; the
`std::map<std::string, std::function<double(double)>>` registry is modelled
as an association list with exact-key lookup; `throw std::invalid_argument(msg)`
is modelled as `Except.error msg`.
-/

namespace UnitConv

/-- Substring occurrence on character lists: `p` occurs contiguously in the
list.  Mirrors `std::string::find(p) != npos`. -/
def hasSubstr (p : List Char) : List Char → Bool
  | [] => p.isEmpty
  | c :: t => p.isPrefixOf (c :: t) || hasSubstr p t

/-- `containsSub s pat` models `s.find(pat) != std::string::npos`. -/
def containsSub (s pat : String) : Bool :=
  hasSubstr pat.toList s.toList

/-- Temperature conversion registrations (`registerTemperatureConversions`). -/
def registerTemperatureConversions : List (String × (ℚ → ℚ)) :=
  [ ("CelsiusToFahrenheit", fun c => c * 9 / 5 + 32),
    ("FahrenheitToCelsius", fun f => (f - 32) * 5 / 9),
    ("CelsiusToKelvin", fun c => c + 273.15),
    ("KelvinToCelsius", fun k => k - 273.15) ]

/-- Distance conversion registrations (`registerDistanceConversions`). -/
def registerDistanceConversions : List (String × (ℚ → ℚ)) :=
  [ ("KilometersToMiles", fun km => km * 0.621371),
    ("MilesToKilometers", fun miles => miles / 0.621371),
    ("MetersToFeet", fun m => m * 3.28084),
    ("FeetToMeters", fun ft => ft / 3.28084) ]

/-- Weight conversion registrations (`registerWeightConversions`). -/
def registerWeightConversions : List (String × (ℚ → ℚ)) :=
  [ ("KilogramsToPounds", fun kg => kg * 2.20462),
    ("PoundsToKilograms", fun lb => lb / 2.20462),
    ("GramsToOunces", fun g => g * 0.035274),
    ("OuncesToGrams", fun oz => oz / 0.035274) ]

/-- Volume conversion registrations (`registerVolumeConversions`). -/
def registerVolumeConversions : List (String × (ℚ → ℚ)) :=
  [ ("LitersToGallons", fun l => l * 0.264172),
    ("GallonsToLiters", fun gal => gal / 0.264172),
    ("MillilitersToFluidOunces", fun ml => ml * 0.033814),
    ("FluidOuncesToMilliliters", fun fl_oz => fl_oz / 0.033814) ]

/-- All registrations, in registration order (`registerConversionFunctions`). -/
def conversionFunctions : List (String × (ℚ → ℚ)) :=
  registerTemperatureConversions ++ registerDistanceConversions ++
    registerWeightConversions ++ registerVolumeConversions

/-- Does the temperature validation apply (name contains "Celsius",
"Fahrenheit" or "Kelvin")? -/
def tempApplies (conversionType : String) : Bool :=
  containsSub conversionType "Celsius" || containsSub conversionType "Fahrenheit" ||
    containsSub conversionType "Kelvin"

/-- The normalized Celsius value `cVal` computed by `convert`. -/
def cNormalized (conversionType : String) (value : ℚ) : ℚ :=
  if containsSub conversionType "Fahrenheit" then (value - 32) * 5 / 9
  else if containsSub conversionType "Kelvin" then value - 273.15
  else value

/-- The temperature guard: the check applies and `cVal < -273.15`. -/
def tempGuard (conversionType : String) (value : ℚ) : Bool :=
  tempApplies conversionType && decide (cNormalized conversionType value < -273.15)

/-- Does the distance validation apply? -/
def distApplies (conversionType : String) : Bool :=
  containsSub conversionType "Kilometers" || containsSub conversionType "Miles" ||
    containsSub conversionType "Meters" || containsSub conversionType "Feet"

/-- The distance guard: the check applies and `value < 0`. -/
def distGuard (conversionType : String) (value : ℚ) : Bool :=
  distApplies conversionType && decide (value < 0)

/-- Does the weight validation apply? -/
def weightApplies (conversionType : String) : Bool :=
  containsSub conversionType "Kilograms" || containsSub conversionType "Pounds" ||
    containsSub conversionType "Grams" || containsSub conversionType "Ounces"

/-- The weight guard: the check applies and `value < 0`. -/
def weightGuard (conversionType : String) (value : ℚ) : Bool :=
  weightApplies conversionType && decide (value < 0)

/-- Does the volume validation apply? -/
def volApplies (conversionType : String) : Bool :=
  containsSub conversionType "Liters" || containsSub conversionType "Gallons" ||
    containsSub conversionType "Milliliters" || containsSub conversionType "FluidOunces"

/-- The volume guard: the check applies and `value < 0`. -/
def volGuard (conversionType : String) (value : ℚ) : Bool :=
  volApplies conversionType && decide (value < 0)

/-- The clamp step: `if (value > 1e6) value = 1e6; else if (value < -1e6)
value = -1e6;`. -/
def clamp (value : ℚ) : ℚ :=
  if value > 1000000 then 1000000
  else if value < -1000000 then -1000000
  else value

/-- `UnitConverter::convert`, parameterised by the registry contents. -/
def convertWith (reg : List (String × (ℚ → ℚ))) (conversionType : String)
    (value : ℚ) : Except String ℚ :=
  if tempGuard conversionType value then
    .error "Temperature value below absolute zero is not valid."
  else if distGuard conversionType value then
    .error "Negative distance values are not valid."
  else if weightGuard conversionType value then
    .error "Negative weight values are not valid."
  else if volGuard conversionType value then
    .error "Negative volume values are not valid."
  else
    match reg.lookup conversionType with
    | some f => .ok (f (clamp value))
    | none => .error ("Invalid conversion type: " ++ conversionType)

/-- `convert` on the registry built at construction. -/
def convert (conversionType : String) (value : ℚ) : Except String ℚ :=
  convertWith conversionFunctions conversionType value

instance : DecidableEq (Except String ℚ)
  | .error a, .error b =>
      decidable_of_iff (a = b) (by simp)
  | .error _, .ok _ => isFalse (by simp)
  | .ok _, .error _ => isFalse (by simp)
  | .ok a, .ok b =>
      decidable_of_iff (a = b) (by simp)

/-- The registered names, in registration order. -/
def registeredNames : List String :=
  conversionFunctions.map Prod.fst

/-! ### Helper lemmas about the guards, the clamp and `convert` -/

theorem tempGuard_false_of_na {n : String} (v : ℚ) (h : tempApplies n = false) :
    tempGuard n v = false := by
  simp [tempGuard, h]

theorem tempGuard_false_of_ge {n : String} {v : ℚ}
    (h : ¬ cNormalized n v < -273.15) : tempGuard n v = false := by
  simp [tempGuard, h]

theorem tempGuard_true_of {n : String} {v : ℚ} (h1 : tempApplies n = true)
    (h2 : cNormalized n v < -273.15) : tempGuard n v = true := by
  simp [tempGuard, h1, h2]

theorem distGuard_false_of_na {n : String} (v : ℚ) (h : distApplies n = false) :
    distGuard n v = false := by
  simp [distGuard, h]

theorem distGuard_false_of_nonneg {n : String} {v : ℚ} (h : 0 ≤ v) :
    distGuard n v = false := by
  simp [distGuard, not_lt.mpr h]

theorem distGuard_true_of {n : String} {v : ℚ} (h1 : distApplies n = true)
    (h2 : v < 0) : distGuard n v = true := by
  simp [distGuard, h1, h2]

theorem weightGuard_false_of_na {n : String} (v : ℚ) (h : weightApplies n = false) :
    weightGuard n v = false := by
  simp [weightGuard, h]

theorem weightGuard_false_of_nonneg {n : String} {v : ℚ} (h : 0 ≤ v) :
    weightGuard n v = false := by
  simp [weightGuard, not_lt.mpr h]

theorem weightGuard_true_of {n : String} {v : ℚ} (h1 : weightApplies n = true)
    (h2 : v < 0) : weightGuard n v = true := by
  simp [weightGuard, h1, h2]

theorem volGuard_false_of_na {n : String} (v : ℚ) (h : volApplies n = false) :
    volGuard n v = false := by
  simp [volGuard, h]

theorem volGuard_false_of_nonneg {n : String} {v : ℚ} (h : 0 ≤ v) :
    volGuard n v = false := by
  simp [volGuard, not_lt.mpr h]

theorem volGuard_true_of {n : String} {v : ℚ} (h1 : volApplies n = true)
    (h2 : v < 0) : volGuard n v = true := by
  simp [volGuard, h1, h2]

theorem cNormalized_fahrenheit {n : String} (v : ℚ)
    (h : containsSub n "Fahrenheit" = true) :
    cNormalized n v = (v - 32) * 5 / 9 := by
  simp [cNormalized, h]

theorem cNormalized_kelvin {n : String} (v : ℚ)
    (hF : containsSub n "Fahrenheit" = false) (hK : containsSub n "Kelvin" = true) :
    cNormalized n v = v - 273.15 := by
  simp [cNormalized, hF, hK]

theorem cNormalized_plain {n : String} (v : ℚ)
    (hF : containsSub n "Fahrenheit" = false) (hK : containsSub n "Kelvin" = false) :
    cNormalized n v = v := by
  simp [cNormalized, hF, hK]

theorem clamp_eq_self {v : ℚ} (h1 : -1000000 ≤ v) (h2 : v ≤ 1000000) :
    clamp v = v := by
  unfold clamp
  rw [if_neg (not_lt.mpr h2), if_neg (not_lt.mpr h1)]

theorem clamp_hi {v : ℚ} (h : 1000000 ≤ v) : clamp v = 1000000 := by
  unfold clamp
  by_cases hv : 1000000 < v
  · rw [if_pos hv]
  · rw [if_neg hv, if_neg (by push_neg at hv ⊢; linarith),
      le_antisymm (not_lt.mp hv) h]

theorem clamp_lo {v : ℚ} (h : v ≤ -1000000) : clamp v = -1000000 := by
  unfold clamp
  rw [if_neg (by push_neg; linarith)]
  by_cases hv : v < -1000000
  · rw [if_pos hv]
  · rw [if_neg hv, le_antisymm h (not_lt.mp hv)]

theorem clamp_le (v : ℚ) : clamp v ≤ 1000000 := by
  unfold clamp
  split
  · exact le_refl _
  · split
    · norm_num
    · linarith [not_lt.mp (by assumption : ¬ v > 1000000)]

theorem le_clamp (v : ℚ) : -1000000 ≤ clamp v := by
  unfold clamp
  split
  · norm_num
  · split
    · exact le_refl _
    · linarith [not_lt.mp (by assumption : ¬ v < -1000000)]

theorem convert_ok (n : String) (f : ℚ → ℚ) (v : ℚ)
    (h1 : tempGuard n v = false) (h2 : distGuard n v = false)
    (h3 : weightGuard n v = false) (h4 : volGuard n v = false)
    (hl : conversionFunctions.lookup n = some f) :
    convert n v = .ok (f (clamp v)) := by
  simp [convert, convertWith, h1, h2, h3, h4, hl]

theorem convert_err_temp {n : String} {v : ℚ} (h : tempGuard n v = true) :
    convert n v = .error "Temperature value below absolute zero is not valid." := by
  simp [convert, convertWith, h]

theorem convert_err_dist {n : String} {v : ℚ} (h1 : tempGuard n v = false)
    (h2 : distGuard n v = true) :
    convert n v = .error "Negative distance values are not valid." := by
  simp [convert, convertWith, h1, h2]

theorem convert_err_weight {n : String} {v : ℚ} (h1 : tempGuard n v = false)
    (h2 : distGuard n v = false) (h3 : weightGuard n v = true) :
    convert n v = .error "Negative weight values are not valid." := by
  simp [convert, convertWith, h1, h2, h3]

theorem convert_err_vol {n : String} {v : ℚ} (h1 : tempGuard n v = false)
    (h2 : distGuard n v = false) (h3 : weightGuard n v = false)
    (h4 : volGuard n v = true) :
    convert n v = .error "Negative volume values are not valid." := by
  simp [convert, convertWith, h1, h2, h3, h4]

theorem convert_err_unknown {n : String} {v : ℚ} (h1 : tempGuard n v = false)
    (h2 : distGuard n v = false) (h3 : weightGuard n v = false)
    (h4 : volGuard n v = false)
    (hl : conversionFunctions.lookup n = none) :
    convert n v = .error ("Invalid conversion type: " ++ n) := by
  simp [convert, convertWith, h1, h2, h3, h4, hl]

theorem convert_ok_inv {n : String} {f : ℚ → ℚ} {v r : ℚ}
    (hl : conversionFunctions.lookup n = some f)
    (h : convert n v = .ok r) : r = f (clamp v) := by
  simp only [convert, convertWith, hl] at h
  split_ifs at h
  all_goals simp_all

/-! ### Per-name evaluation lemmas (success cases) -/

theorem eval_CelsiusToFahrenheit (v : ℚ) (h : ¬ (v - 32) * 5 / 9 < -273.15) :
    convert "CelsiusToFahrenheit" v = .ok (clamp v * 9 / 5 + 32) :=
  convert_ok _ (fun c => c * 9 / 5 + 32) _ (tempGuard_false_of_ge (by rwa [cNormalized_fahrenheit v (by decide)]))
    (distGuard_false_of_na v (by decide)) (weightGuard_false_of_na v (by decide))
    (volGuard_false_of_na v (by decide)) rfl

theorem eval_FahrenheitToCelsius (v : ℚ) (h : ¬ (v - 32) * 5 / 9 < -273.15) :
    convert "FahrenheitToCelsius" v = .ok ((clamp v - 32) * 5 / 9) :=
  convert_ok _ (fun f => (f - 32) * 5 / 9) _ (tempGuard_false_of_ge (by rwa [cNormalized_fahrenheit v (by decide)]))
    (distGuard_false_of_na v (by decide)) (weightGuard_false_of_na v (by decide))
    (volGuard_false_of_na v (by decide)) rfl

theorem eval_CelsiusToKelvin (v : ℚ) (h : ¬ v - 273.15 < -273.15) :
    convert "CelsiusToKelvin" v = .ok (clamp v + 273.15) :=
  convert_ok _ (fun c => c + 273.15) _
    (tempGuard_false_of_ge (by rwa [cNormalized_kelvin v (by decide) (by decide)]))
    (distGuard_false_of_na v (by decide)) (weightGuard_false_of_na v (by decide))
    (volGuard_false_of_na v (by decide)) rfl

theorem eval_KelvinToCelsius (v : ℚ) (h : ¬ v - 273.15 < -273.15) :
    convert "KelvinToCelsius" v = .ok (clamp v - 273.15) :=
  convert_ok _ (fun k => k - 273.15) _
    (tempGuard_false_of_ge (by rwa [cNormalized_kelvin v (by decide) (by decide)]))
    (distGuard_false_of_na v (by decide)) (weightGuard_false_of_na v (by decide))
    (volGuard_false_of_na v (by decide)) rfl

theorem eval_KilometersToMiles (v : ℚ) (h : 0 ≤ v) :
    convert "KilometersToMiles" v = .ok (clamp v * 0.621371) :=
  convert_ok _ (fun km => km * 0.621371) _ (tempGuard_false_of_na v (by decide)) (distGuard_false_of_nonneg h)
    (weightGuard_false_of_na v (by decide)) (volGuard_false_of_na v (by decide)) rfl

theorem eval_MilesToKilometers (v : ℚ) (h : 0 ≤ v) :
    convert "MilesToKilometers" v = .ok (clamp v / 0.621371) :=
  convert_ok _ (fun miles => miles / 0.621371) _ (tempGuard_false_of_na v (by decide)) (distGuard_false_of_nonneg h)
    (weightGuard_false_of_na v (by decide)) (volGuard_false_of_na v (by decide)) rfl

theorem eval_MetersToFeet (v : ℚ) (h : 0 ≤ v) :
    convert "MetersToFeet" v = .ok (clamp v * 3.28084) :=
  convert_ok _ (fun m => m * 3.28084) _ (tempGuard_false_of_na v (by decide)) (distGuard_false_of_nonneg h)
    (weightGuard_false_of_na v (by decide)) (volGuard_false_of_na v (by decide)) rfl

theorem eval_FeetToMeters (v : ℚ) (h : 0 ≤ v) :
    convert "FeetToMeters" v = .ok (clamp v / 3.28084) :=
  convert_ok _ (fun ft => ft / 3.28084) _ (tempGuard_false_of_na v (by decide)) (distGuard_false_of_nonneg h)
    (weightGuard_false_of_na v (by decide)) (volGuard_false_of_na v (by decide)) rfl

theorem eval_KilogramsToPounds (v : ℚ) (h : 0 ≤ v) :
    convert "KilogramsToPounds" v = .ok (clamp v * 2.20462) :=
  convert_ok _ (fun kg => kg * 2.20462) _ (tempGuard_false_of_na v (by decide)) (distGuard_false_of_na v (by decide))
    (weightGuard_false_of_nonneg h) (volGuard_false_of_na v (by decide)) rfl

theorem eval_PoundsToKilograms (v : ℚ) (h : 0 ≤ v) :
    convert "PoundsToKilograms" v = .ok (clamp v / 2.20462) :=
  convert_ok _ (fun lb => lb / 2.20462) _ (tempGuard_false_of_na v (by decide)) (distGuard_false_of_na v (by decide))
    (weightGuard_false_of_nonneg h) (volGuard_false_of_na v (by decide)) rfl

theorem eval_GramsToOunces (v : ℚ) (h : 0 ≤ v) :
    convert "GramsToOunces" v = .ok (clamp v * 0.035274) :=
  convert_ok _ (fun g => g * 0.035274) _ (tempGuard_false_of_na v (by decide)) (distGuard_false_of_na v (by decide))
    (weightGuard_false_of_nonneg h) (volGuard_false_of_na v (by decide)) rfl

theorem eval_OuncesToGrams (v : ℚ) (h : 0 ≤ v) :
    convert "OuncesToGrams" v = .ok (clamp v / 0.035274) :=
  convert_ok _ (fun oz => oz / 0.035274) _ (tempGuard_false_of_na v (by decide)) (distGuard_false_of_na v (by decide))
    (weightGuard_false_of_nonneg h) (volGuard_false_of_na v (by decide)) rfl

theorem eval_LitersToGallons (v : ℚ) (h : 0 ≤ v) :
    convert "LitersToGallons" v = .ok (clamp v * 0.264172) :=
  convert_ok _ (fun l => l * 0.264172) _ (tempGuard_false_of_na v (by decide)) (distGuard_false_of_na v (by decide))
    (weightGuard_false_of_na v (by decide)) (volGuard_false_of_nonneg h) rfl

theorem eval_GallonsToLiters (v : ℚ) (h : 0 ≤ v) :
    convert "GallonsToLiters" v = .ok (clamp v / 0.264172) :=
  convert_ok _ (fun gal => gal / 0.264172) _ (tempGuard_false_of_na v (by decide)) (distGuard_false_of_na v (by decide))
    (weightGuard_false_of_na v (by decide)) (volGuard_false_of_nonneg h) rfl

theorem eval_MillilitersToFluidOunces (v : ℚ) (h : 0 ≤ v) :
    convert "MillilitersToFluidOunces" v = .ok (clamp v * 0.033814) :=
  convert_ok _ (fun ml => ml * 0.033814) _ (tempGuard_false_of_na v (by decide)) (distGuard_false_of_na v (by decide))
    (weightGuard_false_of_nonneg h) (volGuard_false_of_nonneg h) rfl

theorem eval_FluidOuncesToMilliliters (v : ℚ) (h : 0 ≤ v) :
    convert "FluidOuncesToMilliliters" v = .ok (clamp v / 0.033814) :=
  convert_ok _ (fun fl_oz => fl_oz / 0.033814) _ (tempGuard_false_of_na v (by decide)) (distGuard_false_of_na v (by decide))
    (weightGuard_false_of_nonneg h) (volGuard_false_of_nonneg h) rfl

/-! ### Per-name evaluation lemmas (error cases) -/

theorem evalTempErr_CelsiusToFahrenheit (v : ℚ) (h : (v - 32) * 5 / 9 < -273.15) :
    convert "CelsiusToFahrenheit" v =
      .error "Temperature value below absolute zero is not valid." :=
  convert_err_temp (tempGuard_true_of (by decide)
    (by rw [cNormalized_fahrenheit v (by decide)]; exact h))

theorem evalTempErr_FahrenheitToCelsius (v : ℚ) (h : (v - 32) * 5 / 9 < -273.15) :
    convert "FahrenheitToCelsius" v =
      .error "Temperature value below absolute zero is not valid." :=
  convert_err_temp (tempGuard_true_of (by decide)
    (by rw [cNormalized_fahrenheit v (by decide)]; exact h))

theorem evalTempErr_CelsiusToKelvin (v : ℚ) (h : v - 273.15 < -273.15) :
    convert "CelsiusToKelvin" v =
      .error "Temperature value below absolute zero is not valid." :=
  convert_err_temp (tempGuard_true_of (by decide)
    (by rw [cNormalized_kelvin v (by decide) (by decide)]; exact h))

theorem evalTempErr_KelvinToCelsius (v : ℚ) (h : v - 273.15 < -273.15) :
    convert "KelvinToCelsius" v =
      .error "Temperature value below absolute zero is not valid." :=
  convert_err_temp (tempGuard_true_of (by decide)
    (by rw [cNormalized_kelvin v (by decide) (by decide)]; exact h))

theorem evalNeg_KilometersToMiles (v : ℚ) (h : v < 0) :
    convert "KilometersToMiles" v = .error "Negative distance values are not valid." :=
  convert_err_dist (tempGuard_false_of_na v (by decide)) (distGuard_true_of (by decide) h)

theorem evalNeg_MilesToKilometers (v : ℚ) (h : v < 0) :
    convert "MilesToKilometers" v = .error "Negative distance values are not valid." :=
  convert_err_dist (tempGuard_false_of_na v (by decide)) (distGuard_true_of (by decide) h)

theorem evalNeg_MetersToFeet (v : ℚ) (h : v < 0) :
    convert "MetersToFeet" v = .error "Negative distance values are not valid." :=
  convert_err_dist (tempGuard_false_of_na v (by decide)) (distGuard_true_of (by decide) h)

theorem evalNeg_FeetToMeters (v : ℚ) (h : v < 0) :
    convert "FeetToMeters" v = .error "Negative distance values are not valid." :=
  convert_err_dist (tempGuard_false_of_na v (by decide)) (distGuard_true_of (by decide) h)

theorem evalNeg_KilogramsToPounds (v : ℚ) (h : v < 0) :
    convert "KilogramsToPounds" v = .error "Negative weight values are not valid." :=
  convert_err_weight (tempGuard_false_of_na v (by decide))
    (distGuard_false_of_na v (by decide)) (weightGuard_true_of (by decide) h)

theorem evalNeg_PoundsToKilograms (v : ℚ) (h : v < 0) :
    convert "PoundsToKilograms" v = .error "Negative weight values are not valid." :=
  convert_err_weight (tempGuard_false_of_na v (by decide))
    (distGuard_false_of_na v (by decide)) (weightGuard_true_of (by decide) h)

theorem evalNeg_GramsToOunces (v : ℚ) (h : v < 0) :
    convert "GramsToOunces" v = .error "Negative weight values are not valid." :=
  convert_err_weight (tempGuard_false_of_na v (by decide))
    (distGuard_false_of_na v (by decide)) (weightGuard_true_of (by decide) h)

theorem evalNeg_OuncesToGrams (v : ℚ) (h : v < 0) :
    convert "OuncesToGrams" v = .error "Negative weight values are not valid." :=
  convert_err_weight (tempGuard_false_of_na v (by decide))
    (distGuard_false_of_na v (by decide)) (weightGuard_true_of (by decide) h)

theorem evalNeg_LitersToGallons (v : ℚ) (h : v < 0) :
    convert "LitersToGallons" v = .error "Negative volume values are not valid." :=
  convert_err_vol (tempGuard_false_of_na v (by decide))
    (distGuard_false_of_na v (by decide)) (weightGuard_false_of_na v (by decide))
    (volGuard_true_of (by decide) h)

theorem evalNeg_GallonsToLiters (v : ℚ) (h : v < 0) :
    convert "GallonsToLiters" v = .error "Negative volume values are not valid." :=
  convert_err_vol (tempGuard_false_of_na v (by decide))
    (distGuard_false_of_na v (by decide)) (weightGuard_false_of_na v (by decide))
    (volGuard_true_of (by decide) h)

/-- "FluidOunces" contains the substring "Ounces", so the weight check (which
precedes the volume check) fires for this name. -/
theorem evalNeg_MillilitersToFluidOunces (v : ℚ) (h : v < 0) :
    convert "MillilitersToFluidOunces" v =
      .error "Negative weight values are not valid." :=
  convert_err_weight (tempGuard_false_of_na v (by decide))
    (distGuard_false_of_na v (by decide)) (weightGuard_true_of (by decide) h)

/-- "FluidOunces" contains the substring "Ounces", so the weight check (which
precedes the volume check) fires for this name. -/
theorem evalNeg_FluidOuncesToMilliliters (v : ℚ) (h : v < 0) :
    convert "FluidOuncesToMilliliters" v =
      .error "Negative weight values are not valid." :=
  convert_err_weight (tempGuard_false_of_na v (by decide))
    (distGuard_false_of_na v (by decide)) (weightGuard_true_of (by decide) h)

/-! ### The unknown-conversion message is distinct from the validation ones -/

theorem unknown_msg_head (n : String) :
    ("Invalid conversion type: " ++ n).data.head? = some 'I' := by
  rw [String.congr_append]
  rfl

theorem unknown_msg_ne (n m : String) (hm : m.data.head? ≠ some 'I') :
    ("Invalid conversion type: " ++ n) ≠ m := by
  intro h
  exact hm (h ▸ unknown_msg_head n)

/-! ### The converter object (`class UnitConverter`) -/

/-- The `UnitConverter` object: its only state is the registry
(`conversionFunctions` member). -/
structure UnitConverter where
  conversionFunctions : List (String × (ℚ → ℚ))

/-- `UnitConverter::UnitConverter()`: construction runs
`registerConversionFunctions()` and nothing else. -/
def UnitConverter.init : UnitConverter :=
  ⟨UnitConv.conversionFunctions⟩

/-- The `convert` member modelled as a state transformer on the object, so
that (absence of) mutation is observable: the method body never assigns to
`conversionFunctions`, so the object is returned unchanged. -/
def UnitConverter.convertM (c : UnitConverter) (conversionType : String)
    (value : ℚ) : Except String ℚ × UnitConverter :=
  (convertWith c.conversionFunctions conversionType value, c)

/-! ### The claims -/

/-- C1: the registry is populated at construction with exactly 16 entries
(4 per category) bound to the exact formulas of the spec table; every
in-range input (passing validation and within the clamp bounds) is mapped by
`convert` to the corresponding formula value, and the three concrete spec
examples hold. -/
theorem registry_binds_exact_formulas :
    registerTemperatureConversions.length = 4 ∧
    registerDistanceConversions.length = 4 ∧
    registerWeightConversions.length = 4 ∧
    registerVolumeConversions.length = 4 ∧
    conversionFunctions.length = 16 ∧
    (∀ x : ℚ, -459.67 ≤ x → x ≤ 1000000 →
      convert "CelsiusToFahrenheit" x = .ok (x * 9 / 5 + 32)) ∧
    (∀ x : ℚ, -459.67 ≤ x → x ≤ 1000000 →
      convert "FahrenheitToCelsius" x = .ok ((x - 32) * 5 / 9)) ∧
    (∀ x : ℚ, 0 ≤ x → x ≤ 1000000 →
      convert "CelsiusToKelvin" x = .ok (x + 273.15)) ∧
    (∀ x : ℚ, 0 ≤ x → x ≤ 1000000 →
      convert "KelvinToCelsius" x = .ok (x - 273.15)) ∧
    (∀ x : ℚ, 0 ≤ x → x ≤ 1000000 →
      convert "KilometersToMiles" x = .ok (x * 0.621371)) ∧
    (∀ x : ℚ, 0 ≤ x → x ≤ 1000000 →
      convert "MilesToKilometers" x = .ok (x / 0.621371)) ∧
    (∀ x : ℚ, 0 ≤ x → x ≤ 1000000 →
      convert "MetersToFeet" x = .ok (x * 3.28084)) ∧
    (∀ x : ℚ, 0 ≤ x → x ≤ 1000000 →
      convert "FeetToMeters" x = .ok (x / 3.28084)) ∧
    (∀ x : ℚ, 0 ≤ x → x ≤ 1000000 →
      convert "KilogramsToPounds" x = .ok (x * 2.20462)) ∧
    (∀ x : ℚ, 0 ≤ x → x ≤ 1000000 →
      convert "PoundsToKilograms" x = .ok (x / 2.20462)) ∧
    (∀ x : ℚ, 0 ≤ x → x ≤ 1000000 →
      convert "GramsToOunces" x = .ok (x * 0.035274)) ∧
    (∀ x : ℚ, 0 ≤ x → x ≤ 1000000 →
      convert "OuncesToGrams" x = .ok (x / 0.035274)) ∧
    (∀ x : ℚ, 0 ≤ x → x ≤ 1000000 →
      convert "LitersToGallons" x = .ok (x * 0.264172)) ∧
    (∀ x : ℚ, 0 ≤ x → x ≤ 1000000 →
      convert "GallonsToLiters" x = .ok (x / 0.264172)) ∧
    (∀ x : ℚ, 0 ≤ x → x ≤ 1000000 →
      convert "MillilitersToFluidOunces" x = .ok (x * 0.033814)) ∧
    (∀ x : ℚ, 0 ≤ x → x ≤ 1000000 →
      convert "FluidOuncesToMilliliters" x = .ok (x / 0.033814)) ∧
    convert "CelsiusToKelvin" 0 = .ok 273.15 ∧
    convert "CelsiusToFahrenheit" 0 = .ok 32 ∧
    convert "KilometersToMiles" 1 = .ok 0.621371 := by
  refine ⟨rfl, rfl, rfl, rfl, rfl, ?_, ?_, ?_, ?_, ?_, ?_, ?_, ?_, ?_, ?_, ?_,
    ?_, ?_, ?_, ?_, ?_, ?_, ?_, ?_⟩
  · intro x h1 h2
    rw [eval_CelsiusToFahrenheit x (by push_neg; linarith),
      clamp_eq_self (by linarith) h2]
  · intro x h1 h2
    rw [eval_FahrenheitToCelsius x (by push_neg; linarith),
      clamp_eq_self (by linarith) h2]
  · intro x h1 h2
    rw [eval_CelsiusToKelvin x (by push_neg; linarith),
      clamp_eq_self (by linarith) h2]
  · intro x h1 h2
    rw [eval_KelvinToCelsius x (by push_neg; linarith),
      clamp_eq_self (by linarith) h2]
  · intro x h1 h2
    rw [eval_KilometersToMiles x h1, clamp_eq_self (by linarith) h2]
  · intro x h1 h2
    rw [eval_MilesToKilometers x h1, clamp_eq_self (by linarith) h2]
  · intro x h1 h2
    rw [eval_MetersToFeet x h1, clamp_eq_self (by linarith) h2]
  · intro x h1 h2
    rw [eval_FeetToMeters x h1, clamp_eq_self (by linarith) h2]
  · intro x h1 h2
    rw [eval_KilogramsToPounds x h1, clamp_eq_self (by linarith) h2]
  · intro x h1 h2
    rw [eval_PoundsToKilograms x h1, clamp_eq_self (by linarith) h2]
  · intro x h1 h2
    rw [eval_GramsToOunces x h1, clamp_eq_self (by linarith) h2]
  · intro x h1 h2
    rw [eval_OuncesToGrams x h1, clamp_eq_self (by linarith) h2]
  · intro x h1 h2
    rw [eval_LitersToGallons x h1, clamp_eq_self (by linarith) h2]
  · intro x h1 h2
    rw [eval_GallonsToLiters x h1, clamp_eq_self (by linarith) h2]
  · intro x h1 h2
    rw [eval_MillilitersToFluidOunces x h1, clamp_eq_self (by linarith) h2]
  · intro x h1 h2
    rw [eval_FluidOuncesToMilliliters x h1, clamp_eq_self (by linarith) h2]
  · rw [eval_CelsiusToKelvin 0 (by norm_num), clamp_eq_self (by norm_num) (by norm_num)]
    norm_num
  · rw [eval_CelsiusToFahrenheit 0 (by norm_num),
      clamp_eq_self (by norm_num) (by norm_num)]
    norm_num
  · rw [eval_KilometersToMiles 1 (by norm_num),
      clamp_eq_self (by norm_num) (by norm_num)]
    norm_num

/-- Witness for C1: the `KilometersToMiles` conjunct applied at the concrete
input 2. -/
theorem registry_binds_exact_formulas_witness :
    (0:ℚ) ≤ 2 ∧ (2:ℚ) ≤ 1000000 ∧
      convert "KilometersToMiles" 2 = .ok (2 * 0.621371) := by
  obtain ⟨-, -, -, -, -, -, -, -, -, hkm, -⟩ := registry_binds_exact_formulas
  exact ⟨by norm_num, by norm_num, hkm 2 (by norm_num) (by norm_num)⟩

/-- C2: for every name and value, `convert` normalizes the value to Celsius
exactly as the spec states (Fahrenheit branch first, then Kelvin, else
unchanged), and fails with the below-absolute-zero message exactly when the
temperature check applies and the normalized value is `< -273.15` — in
particular this check takes precedence over the distance, weight, and volume
checks. -/
theorem temperature_check_normalizes_and_precedes :
    (∀ (n : String) (v : ℚ), cNormalized n v =
      if containsSub n "Fahrenheit" = true then (v - 32) * 5 / 9
      else if containsSub n "Kelvin" = true then v - 273.15
      else v) ∧
    (∀ (n : String) (v : ℚ),
      convert n v = .error "Temperature value below absolute zero is not valid." ↔
        (tempApplies n = true ∧ cNormalized n v < -273.15)) := by
  constructor
  · intro n v
    rfl
  · intro n v
    constructor
    · intro h
      cases hb : tempGuard n v with
      | true =>
        simp only [tempGuard, Bool.and_eq_true, decide_eq_true_eq] at hb
        exact hb
      | false =>
        exfalso
        cases hd : distGuard n v with
        | true =>
          rw [convert_err_dist hb hd] at h
          simp only [Except.error.injEq] at h
          exact absurd h (by decide)
        | false =>
          cases hw : weightGuard n v with
          | true =>
            rw [convert_err_weight hb hd hw] at h
            simp only [Except.error.injEq] at h
            exact absurd h (by decide)
          | false =>
            cases hvv : volGuard n v with
            | true =>
              rw [convert_err_vol hb hd hw hvv] at h
              simp only [Except.error.injEq] at h
              exact absurd h (by decide)
            | false =>
              cases hlook : conversionFunctions.lookup n with
              | some f =>
                rw [convert_ok n f v hb hd hw hvv hlook] at h
                exact Except.noConfusion h
              | none =>
                rw [convert_err_unknown hb hd hw hvv hlook] at h
                simp only [Except.error.injEq] at h
                exact unknown_msg_ne n _ (by decide) h
    · rintro ⟨h1, h2⟩
      exact convert_err_temp (tempGuard_true_of h1 h2)

/-- Witness for C2: the characterization applied at `"CelsiusToKelvin"` and
`-300`. -/
theorem temperature_check_normalizes_and_precedes_witness :
    convert "CelsiusToKelvin" (-300) =
      .error "Temperature value below absolute zero is not valid." := by
  apply (temperature_check_normalizes_and_precedes.2 "CelsiusToKelvin" (-300)).mpr
  refine ⟨by decide, ?_⟩
  rw [cNormalized_kelvin (-300 : ℚ) (by decide) (by decide)]
  norm_num

/-- C3 counterexample: contrary to the claim, `convert("CelsiusToKelvin",
-273.15)` does not succeed — the name contains "Kelvin", so the check
normalizes the Celsius input as if it were Kelvin (`-273.15 - 273.15 =
-546.30 < -273.15`) and throws. -/
theorem celsiusToKelvin_boundary_counterexample :
    convert "CelsiusToKelvin" (-273.15) =
      .error "Temperature value below absolute zero is not valid." :=
  evalTempErr_CelsiusToKelvin (-273.15) (by norm_num)

/-- C3 amended: `convert("CelsiusToKelvin", -300)` and `-273.16` fail with
the below-absolute-zero message as claimed, but the boundary `-273.15` fails
as well; in fact every negative input fails, and the actual boundary that
succeeds is `0` (with `convert("CelsiusToKelvin", 0) = 273.15`). -/
theorem celsiusToKelvin_below_zero_amended :
    convert "CelsiusToKelvin" (-300) =
      .error "Temperature value below absolute zero is not valid." ∧
    convert "CelsiusToKelvin" (-273.16) =
      .error "Temperature value below absolute zero is not valid." ∧
    convert "CelsiusToKelvin" (-273.15) =
      .error "Temperature value below absolute zero is not valid." ∧
    (∀ v : ℚ, v < 0 → convert "CelsiusToKelvin" v =
      .error "Temperature value below absolute zero is not valid.") ∧
    convert "CelsiusToKelvin" 0 = .ok 273.15 := by
  refine ⟨evalTempErr_CelsiusToKelvin _ (by norm_num),
    evalTempErr_CelsiusToKelvin _ (by norm_num),
    evalTempErr_CelsiusToKelvin _ (by norm_num),
    fun v hv => evalTempErr_CelsiusToKelvin v (by linarith), ?_⟩
  rw [eval_CelsiusToKelvin 0 (by norm_num), clamp_eq_self (by norm_num) (by norm_num)]
  norm_num

/-- Witness for C3 (amended): the negative-input conjunct applied at `-1`. -/
theorem celsiusToKelvin_below_zero_amended_witness :
    (-1 : ℚ) < 0 ∧ convert "CelsiusToKelvin" (-1) =
      .error "Temperature value below absolute zero is not valid." := by
  obtain ⟨-, -, -, hneg, -⟩ := celsiusToKelvin_below_zero_amended
  exact ⟨by norm_num, hneg (-1) (by norm_num)⟩

/-- C4 counterexample: contrary to the claim, a negative input to
`"MillilitersToFluidOunces"` fails with the *weight* message, not the volume
one — "FluidOunces" contains "Ounces" and the weight check runs first. -/
theorem fluidOunces_negative_counterexample :
    convert "MillilitersToFluidOunces" (-1) =
      .error "Negative weight values are not valid." ∧
    convert "MillilitersToFluidOunces" (-1) ≠
      .error "Negative volume values are not valid." := by
  have h := evalNeg_MillilitersToFluidOunces (-1) (by norm_num)
  refine ⟨h, ?_⟩
  rw [h]
  intro hc
  injection hc with hc2
  exact absurd hc2 (by decide)

/-- C4 amended: negative inputs to the eight distance and weight names fail
with their category's error, and `LitersToGallons` / `GallonsToLiters` fail
with the volume error; but the two names containing "FluidOunces" fail with
the *weight* error, because "FluidOunces" contains the substring "Ounces"
and the weight check precedes the volume check. -/
theorem negative_inputs_error_amended :
    (∀ v : ℚ, v < 0 → convert "KilometersToMiles" v =
      .error "Negative distance values are not valid.") ∧
    (∀ v : ℚ, v < 0 → convert "MilesToKilometers" v =
      .error "Negative distance values are not valid.") ∧
    (∀ v : ℚ, v < 0 → convert "MetersToFeet" v =
      .error "Negative distance values are not valid.") ∧
    (∀ v : ℚ, v < 0 → convert "FeetToMeters" v =
      .error "Negative distance values are not valid.") ∧
    (∀ v : ℚ, v < 0 → convert "KilogramsToPounds" v =
      .error "Negative weight values are not valid.") ∧
    (∀ v : ℚ, v < 0 → convert "PoundsToKilograms" v =
      .error "Negative weight values are not valid.") ∧
    (∀ v : ℚ, v < 0 → convert "GramsToOunces" v =
      .error "Negative weight values are not valid.") ∧
    (∀ v : ℚ, v < 0 → convert "OuncesToGrams" v =
      .error "Negative weight values are not valid.") ∧
    (∀ v : ℚ, v < 0 → convert "LitersToGallons" v =
      .error "Negative volume values are not valid.") ∧
    (∀ v : ℚ, v < 0 → convert "GallonsToLiters" v =
      .error "Negative volume values are not valid.") ∧
    (∀ v : ℚ, v < 0 → convert "MillilitersToFluidOunces" v =
      .error "Negative weight values are not valid.") ∧
    (∀ v : ℚ, v < 0 → convert "FluidOuncesToMilliliters" v =
      .error "Negative weight values are not valid.") :=
  ⟨evalNeg_KilometersToMiles, evalNeg_MilesToKilometers, evalNeg_MetersToFeet,
    evalNeg_FeetToMeters, evalNeg_KilogramsToPounds, evalNeg_PoundsToKilograms,
    evalNeg_GramsToOunces, evalNeg_OuncesToGrams, evalNeg_LitersToGallons,
    evalNeg_GallonsToLiters, evalNeg_MillilitersToFluidOunces,
    evalNeg_FluidOuncesToMilliliters⟩

/-- Witness for C4 (amended): the `KilometersToMiles` conjunct at `-3`. -/
theorem negative_inputs_error_amended_witness :
    (-3 : ℚ) < 0 ∧ convert "KilometersToMiles" (-3) =
      .error "Negative distance values are not valid." :=
  ⟨by norm_num, negative_inputs_error_amended.1 (-3) (by norm_num)⟩

/-- C5: validation runs on the original value and clamping happens after it,
so for every registered name `convert(name, 1e7) = convert(name, 1e6)` and
`convert(name, -1e7) = convert(name, -1e6)` (on the negative side both calls
fail with the same error, for every registered name). -/
theorem clamping_idempotence :
    ∀ n ∈ registeredNames,
      convert n 10000000 = convert n 1000000 ∧
      convert n (-10000000) = convert n (-1000000) := by
  intro n hn
  simp only [registeredNames, conversionFunctions, registerTemperatureConversions,
    registerDistanceConversions, registerWeightConversions,
    registerVolumeConversions, List.map_append, List.map_cons, List.map_nil,
    List.append_assoc, List.cons_append, List.nil_append, List.mem_cons,
    List.not_mem_nil, or_false] at hn
  rcases hn with rfl | rfl | rfl | rfl | rfl | rfl | rfl | rfl | rfl | rfl | rfl | rfl | rfl | rfl | rfl | rfl
  · constructor
    ·
      rw [eval_CelsiusToFahrenheit 10000000 (by norm_num),
        eval_CelsiusToFahrenheit 1000000 (by norm_num),
        clamp_hi (show (1000000:ℚ) ≤ 10000000 by norm_num),
        clamp_hi (le_refl (1000000:ℚ))]
    ·
      rw [evalTempErr_CelsiusToFahrenheit (-10000000) (by norm_num),
        evalTempErr_CelsiusToFahrenheit (-1000000) (by norm_num)]
  · constructor
    ·
      rw [eval_FahrenheitToCelsius 10000000 (by norm_num),
        eval_FahrenheitToCelsius 1000000 (by norm_num),
        clamp_hi (show (1000000:ℚ) ≤ 10000000 by norm_num),
        clamp_hi (le_refl (1000000:ℚ))]
    ·
      rw [evalTempErr_FahrenheitToCelsius (-10000000) (by norm_num),
        evalTempErr_FahrenheitToCelsius (-1000000) (by norm_num)]
  · constructor
    ·
      rw [eval_CelsiusToKelvin 10000000 (by norm_num),
        eval_CelsiusToKelvin 1000000 (by norm_num),
        clamp_hi (show (1000000:ℚ) ≤ 10000000 by norm_num),
        clamp_hi (le_refl (1000000:ℚ))]
    ·
      rw [evalTempErr_CelsiusToKelvin (-10000000) (by norm_num),
        evalTempErr_CelsiusToKelvin (-1000000) (by norm_num)]
  · constructor
    ·
      rw [eval_KelvinToCelsius 10000000 (by norm_num),
        eval_KelvinToCelsius 1000000 (by norm_num),
        clamp_hi (show (1000000:ℚ) ≤ 10000000 by norm_num),
        clamp_hi (le_refl (1000000:ℚ))]
    ·
      rw [evalTempErr_KelvinToCelsius (-10000000) (by norm_num),
        evalTempErr_KelvinToCelsius (-1000000) (by norm_num)]
  · constructor
    ·
      rw [eval_KilometersToMiles 10000000 (by norm_num),
        eval_KilometersToMiles 1000000 (by norm_num),
        clamp_hi (show (1000000:ℚ) ≤ 10000000 by norm_num),
        clamp_hi (le_refl (1000000:ℚ))]
    ·
      rw [evalNeg_KilometersToMiles (-10000000) (by norm_num),
        evalNeg_KilometersToMiles (-1000000) (by norm_num)]
  · constructor
    ·
      rw [eval_MilesToKilometers 10000000 (by norm_num),
        eval_MilesToKilometers 1000000 (by norm_num),
        clamp_hi (show (1000000:ℚ) ≤ 10000000 by norm_num),
        clamp_hi (le_refl (1000000:ℚ))]
    ·
      rw [evalNeg_MilesToKilometers (-10000000) (by norm_num),
        evalNeg_MilesToKilometers (-1000000) (by norm_num)]
  · constructor
    ·
      rw [eval_MetersToFeet 10000000 (by norm_num),
        eval_MetersToFeet 1000000 (by norm_num),
        clamp_hi (show (1000000:ℚ) ≤ 10000000 by norm_num),
        clamp_hi (le_refl (1000000:ℚ))]
    ·
      rw [evalNeg_MetersToFeet (-10000000) (by norm_num),
        evalNeg_MetersToFeet (-1000000) (by norm_num)]
  · constructor
    ·
      rw [eval_FeetToMeters 10000000 (by norm_num),
        eval_FeetToMeters 1000000 (by norm_num),
        clamp_hi (show (1000000:ℚ) ≤ 10000000 by norm_num),
        clamp_hi (le_refl (1000000:ℚ))]
    ·
      rw [evalNeg_FeetToMeters (-10000000) (by norm_num),
        evalNeg_FeetToMeters (-1000000) (by norm_num)]
  · constructor
    ·
      rw [eval_KilogramsToPounds 10000000 (by norm_num),
        eval_KilogramsToPounds 1000000 (by norm_num),
        clamp_hi (show (1000000:ℚ) ≤ 10000000 by norm_num),
        clamp_hi (le_refl (1000000:ℚ))]
    ·
      rw [evalNeg_KilogramsToPounds (-10000000) (by norm_num),
        evalNeg_KilogramsToPounds (-1000000) (by norm_num)]
  · constructor
    ·
      rw [eval_PoundsToKilograms 10000000 (by norm_num),
        eval_PoundsToKilograms 1000000 (by norm_num),
        clamp_hi (show (1000000:ℚ) ≤ 10000000 by norm_num),
        clamp_hi (le_refl (1000000:ℚ))]
    ·
      rw [evalNeg_PoundsToKilograms (-10000000) (by norm_num),
        evalNeg_PoundsToKilograms (-1000000) (by norm_num)]
  · constructor
    ·
      rw [eval_GramsToOunces 10000000 (by norm_num),
        eval_GramsToOunces 1000000 (by norm_num),
        clamp_hi (show (1000000:ℚ) ≤ 10000000 by norm_num),
        clamp_hi (le_refl (1000000:ℚ))]
    ·
      rw [evalNeg_GramsToOunces (-10000000) (by norm_num),
        evalNeg_GramsToOunces (-1000000) (by norm_num)]
  · constructor
    ·
      rw [eval_OuncesToGrams 10000000 (by norm_num),
        eval_OuncesToGrams 1000000 (by norm_num),
        clamp_hi (show (1000000:ℚ) ≤ 10000000 by norm_num),
        clamp_hi (le_refl (1000000:ℚ))]
    ·
      rw [evalNeg_OuncesToGrams (-10000000) (by norm_num),
        evalNeg_OuncesToGrams (-1000000) (by norm_num)]
  · constructor
    ·
      rw [eval_LitersToGallons 10000000 (by norm_num),
        eval_LitersToGallons 1000000 (by norm_num),
        clamp_hi (show (1000000:ℚ) ≤ 10000000 by norm_num),
        clamp_hi (le_refl (1000000:ℚ))]
    ·
      rw [evalNeg_LitersToGallons (-10000000) (by norm_num),
        evalNeg_LitersToGallons (-1000000) (by norm_num)]
  · constructor
    ·
      rw [eval_GallonsToLiters 10000000 (by norm_num),
        eval_GallonsToLiters 1000000 (by norm_num),
        clamp_hi (show (1000000:ℚ) ≤ 10000000 by norm_num),
        clamp_hi (le_refl (1000000:ℚ))]
    ·
      rw [evalNeg_GallonsToLiters (-10000000) (by norm_num),
        evalNeg_GallonsToLiters (-1000000) (by norm_num)]
  · constructor
    ·
      rw [eval_MillilitersToFluidOunces 10000000 (by norm_num),
        eval_MillilitersToFluidOunces 1000000 (by norm_num),
        clamp_hi (show (1000000:ℚ) ≤ 10000000 by norm_num),
        clamp_hi (le_refl (1000000:ℚ))]
    ·
      rw [evalNeg_MillilitersToFluidOunces (-10000000) (by norm_num),
        evalNeg_MillilitersToFluidOunces (-1000000) (by norm_num)]
  · constructor
    ·
      rw [eval_FluidOuncesToMilliliters 10000000 (by norm_num),
        eval_FluidOuncesToMilliliters 1000000 (by norm_num),
        clamp_hi (show (1000000:ℚ) ≤ 10000000 by norm_num),
        clamp_hi (le_refl (1000000:ℚ))]
    ·
      rw [evalNeg_FluidOuncesToMilliliters (-10000000) (by norm_num),
        evalNeg_FluidOuncesToMilliliters (-1000000) (by norm_num)]

/-- Witness for C5: the idempotence applied at `"KilometersToMiles"`. -/
theorem clamping_idempotence_witness :
    convert "KilometersToMiles" 10000000 = convert "KilometersToMiles" 1000000 ∧
    convert "KilometersToMiles" (-10000000) =
      convert "KilometersToMiles" (-1000000) :=
  clamping_idempotence "KilometersToMiles" (by decide)

/-- C6: a name absent from the registry whose value passes the substring
validation fails with the exact message `"Invalid conversion type: " ++ name`;
in particular `"InvalidType"` at 100, and `"MetersToYards"` (which matches the
distance substring check but is not registered) at any nonnegative value. -/
theorem unknown_name_errors :
    (∀ (n : String) (v : ℚ), conversionFunctions.lookup n = none →
      tempGuard n v = false → distGuard n v = false → weightGuard n v = false →
      volGuard n v = false →
      convert n v = .error ("Invalid conversion type: " ++ n)) ∧
    convert "InvalidType" 100 = .error "Invalid conversion type: InvalidType" ∧
    (∀ v : ℚ, 0 ≤ v →
      convert "MetersToYards" v = .error "Invalid conversion type: MetersToYards") := by
  refine ⟨fun n v hl h1 h2 h3 h4 => convert_err_unknown h1 h2 h3 h4 hl, ?_, ?_⟩
  · have h : convert "InvalidType" 100 =
        .error ("Invalid conversion type: " ++ "InvalidType") := by
      apply convert_err_unknown
      · exact tempGuard_false_of_na _ (by decide)
      · exact distGuard_false_of_na _ (by decide)
      · exact weightGuard_false_of_na _ (by decide)
      · exact volGuard_false_of_na _ (by decide)
      · rfl
    exact h.trans (congrArg Except.error (by decide))
  · intro v hv
    have h : convert "MetersToYards" v =
        .error ("Invalid conversion type: " ++ "MetersToYards") := by
      apply convert_err_unknown
      · exact tempGuard_false_of_na _ (by decide)
      · exact distGuard_false_of_nonneg hv
      · exact weightGuard_false_of_na _ (by decide)
      · exact volGuard_false_of_na _ (by decide)
      · rfl
    exact h.trans (congrArg Except.error (by decide))

/-- Witness for C6: the `MetersToYards` conjunct at 5. -/
theorem unknown_name_errors_witness :
    (0:ℚ) ≤ 5 ∧ convert "MetersToYards" 5 =
      .error "Invalid conversion type: MetersToYards" :=
  ⟨by norm_num, unknown_name_errors.2.2 5 (by norm_num)⟩

theorem roundtrip_aux (a b : String) (f g : ℚ → ℚ)
    (ha : conversionFunctions.lookup a = some f)
    (hb : conversionFunctions.lookup b = some g)
    (hfg : ∀ t, g (f t) = t) :
    ∀ x y z : ℚ, convert a x = .ok y → convert b y = .ok z →
      -1000000 ≤ x → x ≤ 1000000 → -1000000 ≤ y → y ≤ 1000000 → z = x := by
  intro x y z h1 h2 hx1 hx2 hy1 hy2
  have e1 := convert_ok_inv ha h1
  have e2 := convert_ok_inv hb h2
  rw [clamp_eq_self hx1 hx2] at e1
  rw [clamp_eq_self hy1 hy2] at e2
  rw [e2, e1, hfg]

/-- C7: each of the eight registered pairs is an exact (hence within any
stated tolerance) inverse pair: whenever both calls succeed and no clamping
applies, converting a value and converting the result back returns the
original value. -/
theorem roundtrip_inverses :
    (∀ x y z : ℚ, convert "CelsiusToFahrenheit" x = .ok y →
      convert "FahrenheitToCelsius" y = .ok z →
      -1000000 ≤ x → x ≤ 1000000 → -1000000 ≤ y → y ≤ 1000000 → z = x) ∧
    (∀ x y z : ℚ, convert "FahrenheitToCelsius" x = .ok y →
      convert "CelsiusToFahrenheit" y = .ok z →
      -1000000 ≤ x → x ≤ 1000000 → -1000000 ≤ y → y ≤ 1000000 → z = x) ∧
    (∀ x y z : ℚ, convert "CelsiusToKelvin" x = .ok y →
      convert "KelvinToCelsius" y = .ok z →
      -1000000 ≤ x → x ≤ 1000000 → -1000000 ≤ y → y ≤ 1000000 → z = x) ∧
    (∀ x y z : ℚ, convert "KelvinToCelsius" x = .ok y →
      convert "CelsiusToKelvin" y = .ok z →
      -1000000 ≤ x → x ≤ 1000000 → -1000000 ≤ y → y ≤ 1000000 → z = x) ∧
    (∀ x y z : ℚ, convert "KilometersToMiles" x = .ok y →
      convert "MilesToKilometers" y = .ok z →
      -1000000 ≤ x → x ≤ 1000000 → -1000000 ≤ y → y ≤ 1000000 → z = x) ∧
    (∀ x y z : ℚ, convert "MilesToKilometers" x = .ok y →
      convert "KilometersToMiles" y = .ok z →
      -1000000 ≤ x → x ≤ 1000000 → -1000000 ≤ y → y ≤ 1000000 → z = x) ∧
    (∀ x y z : ℚ, convert "MetersToFeet" x = .ok y →
      convert "FeetToMeters" y = .ok z →
      -1000000 ≤ x → x ≤ 1000000 → -1000000 ≤ y → y ≤ 1000000 → z = x) ∧
    (∀ x y z : ℚ, convert "FeetToMeters" x = .ok y →
      convert "MetersToFeet" y = .ok z →
      -1000000 ≤ x → x ≤ 1000000 → -1000000 ≤ y → y ≤ 1000000 → z = x) ∧
    (∀ x y z : ℚ, convert "KilogramsToPounds" x = .ok y →
      convert "PoundsToKilograms" y = .ok z →
      -1000000 ≤ x → x ≤ 1000000 → -1000000 ≤ y → y ≤ 1000000 → z = x) ∧
    (∀ x y z : ℚ, convert "PoundsToKilograms" x = .ok y →
      convert "KilogramsToPounds" y = .ok z →
      -1000000 ≤ x → x ≤ 1000000 → -1000000 ≤ y → y ≤ 1000000 → z = x) ∧
    (∀ x y z : ℚ, convert "GramsToOunces" x = .ok y →
      convert "OuncesToGrams" y = .ok z →
      -1000000 ≤ x → x ≤ 1000000 → -1000000 ≤ y → y ≤ 1000000 → z = x) ∧
    (∀ x y z : ℚ, convert "OuncesToGrams" x = .ok y →
      convert "GramsToOunces" y = .ok z →
      -1000000 ≤ x → x ≤ 1000000 → -1000000 ≤ y → y ≤ 1000000 → z = x) ∧
    (∀ x y z : ℚ, convert "LitersToGallons" x = .ok y →
      convert "GallonsToLiters" y = .ok z →
      -1000000 ≤ x → x ≤ 1000000 → -1000000 ≤ y → y ≤ 1000000 → z = x) ∧
    (∀ x y z : ℚ, convert "GallonsToLiters" x = .ok y →
      convert "LitersToGallons" y = .ok z →
      -1000000 ≤ x → x ≤ 1000000 → -1000000 ≤ y → y ≤ 1000000 → z = x) ∧
    (∀ x y z : ℚ, convert "MillilitersToFluidOunces" x = .ok y →
      convert "FluidOuncesToMilliliters" y = .ok z →
      -1000000 ≤ x → x ≤ 1000000 → -1000000 ≤ y → y ≤ 1000000 → z = x) ∧
    (∀ x y z : ℚ, convert "FluidOuncesToMilliliters" x = .ok y →
      convert "MillilitersToFluidOunces" y = .ok z →
      -1000000 ≤ x → x ≤ 1000000 → -1000000 ≤ y → y ≤ 1000000 → z = x) := by
  refine ⟨?_, ?_, ?_, ?_, ?_, ?_, ?_, ?_, ?_, ?_, ?_, ?_, ?_, ?_, ?_, ?_⟩
  · exact roundtrip_aux _ _ (fun c => c * 9 / 5 + 32) (fun f => (f - 32) * 5 / 9) rfl rfl
      (fun t => by ring)
  · exact roundtrip_aux _ _ (fun f => (f - 32) * 5 / 9) (fun c => c * 9 / 5 + 32) rfl rfl
      (fun t => by ring)
  · exact roundtrip_aux _ _ (fun c => c + 273.15) (fun k => k - 273.15) rfl rfl
      (fun t => by ring)
  · exact roundtrip_aux _ _ (fun k => k - 273.15) (fun c => c + 273.15) rfl rfl
      (fun t => by ring)
  · exact roundtrip_aux _ _ (fun km => km * 0.621371) (fun miles => miles / 0.621371) rfl rfl
      (fun t => by field_simp)
  · exact roundtrip_aux _ _ (fun miles => miles / 0.621371) (fun km => km * 0.621371) rfl rfl
      (fun t => by field_simp)
  · exact roundtrip_aux _ _ (fun m => m * 3.28084) (fun ft => ft / 3.28084) rfl rfl
      (fun t => by field_simp)
  · exact roundtrip_aux _ _ (fun ft => ft / 3.28084) (fun m => m * 3.28084) rfl rfl
      (fun t => by field_simp)
  · exact roundtrip_aux _ _ (fun kg => kg * 2.20462) (fun lb => lb / 2.20462) rfl rfl
      (fun t => by field_simp)
  · exact roundtrip_aux _ _ (fun lb => lb / 2.20462) (fun kg => kg * 2.20462) rfl rfl
      (fun t => by field_simp)
  · exact roundtrip_aux _ _ (fun g => g * 0.035274) (fun oz => oz / 0.035274) rfl rfl
      (fun t => by field_simp)
  · exact roundtrip_aux _ _ (fun oz => oz / 0.035274) (fun g => g * 0.035274) rfl rfl
      (fun t => by field_simp)
  · exact roundtrip_aux _ _ (fun l => l * 0.264172) (fun gal => gal / 0.264172) rfl rfl
      (fun t => by field_simp)
  · exact roundtrip_aux _ _ (fun gal => gal / 0.264172) (fun l => l * 0.264172) rfl rfl
      (fun t => by field_simp)
  · exact roundtrip_aux _ _ (fun ml => ml * 0.033814) (fun fl_oz => fl_oz / 0.033814) rfl rfl
      (fun t => by field_simp)
  · exact roundtrip_aux _ _ (fun fl_oz => fl_oz / 0.033814) (fun ml => ml * 0.033814) rfl rfl
      (fun t => by field_simp)

/-- Witness for C7: the Celsius/Kelvin pair applied at 5. -/
theorem roundtrip_inverses_witness :
    convert "CelsiusToKelvin" 5 = .ok 278.15 ∧
    convert "KelvinToCelsius" 278.15 = .ok 5 ∧ (5:ℚ) = 5 := by
  have h1 : convert "CelsiusToKelvin" (5:ℚ) = .ok 278.15 := by
    rw [eval_CelsiusToKelvin 5 (by norm_num), clamp_eq_self (by norm_num) (by norm_num)]
    norm_num
  have h2 : convert "KelvinToCelsius" (278.15 : ℚ) = .ok 5 := by
    rw [eval_KelvinToCelsius 278.15 (by norm_num),
      clamp_eq_self (by norm_num) (by norm_num)]
    norm_num
  obtain ⟨-, -, hck, -⟩ := roundtrip_inverses
  exact ⟨h1, h2,
    hck 5 278.15 5 h1 h2 (by norm_num) (by norm_num) (by norm_num) (by norm_num)⟩

/-- C8: for every registered name, every successful `convert` result is
bounded (the clamp bounds the formula argument to `[-1e6, 1e6]`, so every
result lies in `[-3e7, 3e7]`) — the rational-model rendering of "finite,
non-NaN, non-infinite". -/
theorem convert_result_bounded :
    ∀ n ∈ registeredNames, ∀ v r : ℚ, convert n v = .ok r →
      -30000000 ≤ r ∧ r ≤ 30000000 := by
  intro n hn v r h
  simp only [registeredNames, conversionFunctions, registerTemperatureConversions,
    registerDistanceConversions, registerWeightConversions,
    registerVolumeConversions, List.map_append, List.map_cons, List.map_nil,
    List.append_assoc, List.cons_append, List.nil_append, List.mem_cons,
    List.not_mem_nil, or_false] at hn
  have b1 := le_clamp v
  have b2 := clamp_le v
  rcases hn with rfl | rfl | rfl | rfl | rfl | rfl | rfl | rfl | rfl | rfl | rfl | rfl | rfl | rfl | rfl | rfl
  · have hl : conversionFunctions.lookup "CelsiusToFahrenheit" =
        some (fun c => c * 9 / 5 + 32) := rfl
    have e : r = clamp v * 9 / 5 + 32 := convert_ok_inv hl h
    exact ⟨by linarith, by linarith⟩
  · have hl : conversionFunctions.lookup "FahrenheitToCelsius" =
        some (fun f => (f - 32) * 5 / 9) := rfl
    have e : r = (clamp v - 32) * 5 / 9 := convert_ok_inv hl h
    exact ⟨by linarith, by linarith⟩
  · have hl : conversionFunctions.lookup "CelsiusToKelvin" =
        some (fun c => c + 273.15) := rfl
    have e : r = clamp v + 273.15 := convert_ok_inv hl h
    exact ⟨by linarith, by linarith⟩
  · have hl : conversionFunctions.lookup "KelvinToCelsius" =
        some (fun k => k - 273.15) := rfl
    have e : r = clamp v - 273.15 := convert_ok_inv hl h
    exact ⟨by linarith, by linarith⟩
  · have hl : conversionFunctions.lookup "KilometersToMiles" =
        some (fun km => km * 0.621371) := rfl
    have e : r = clamp v * 0.621371 := convert_ok_inv hl h
    exact ⟨by linarith, by linarith⟩
  · have hl : conversionFunctions.lookup "MilesToKilometers" =
        some (fun miles => miles / 0.621371) := rfl
    have e : r = clamp v / 0.621371 := convert_ok_inv hl h
    have e2 : r = clamp v * (1000000 / 621371 : ℚ) := by rw [e]; ring
    exact ⟨by linarith, by linarith⟩
  · have hl : conversionFunctions.lookup "MetersToFeet" =
        some (fun m => m * 3.28084) := rfl
    have e : r = clamp v * 3.28084 := convert_ok_inv hl h
    exact ⟨by linarith, by linarith⟩
  · have hl : conversionFunctions.lookup "FeetToMeters" =
        some (fun ft => ft / 3.28084) := rfl
    have e : r = clamp v / 3.28084 := convert_ok_inv hl h
    have e2 : r = clamp v * (100000 / 328084 : ℚ) := by rw [e]; ring
    exact ⟨by linarith, by linarith⟩
  · have hl : conversionFunctions.lookup "KilogramsToPounds" =
        some (fun kg => kg * 2.20462) := rfl
    have e : r = clamp v * 2.20462 := convert_ok_inv hl h
    exact ⟨by linarith, by linarith⟩
  · have hl : conversionFunctions.lookup "PoundsToKilograms" =
        some (fun lb => lb / 2.20462) := rfl
    have e : r = clamp v / 2.20462 := convert_ok_inv hl h
    have e2 : r = clamp v * (100000 / 220462 : ℚ) := by rw [e]; ring
    exact ⟨by linarith, by linarith⟩
  · have hl : conversionFunctions.lookup "GramsToOunces" =
        some (fun g => g * 0.035274) := rfl
    have e : r = clamp v * 0.035274 := convert_ok_inv hl h
    exact ⟨by linarith, by linarith⟩
  · have hl : conversionFunctions.lookup "OuncesToGrams" =
        some (fun oz => oz / 0.035274) := rfl
    have e : r = clamp v / 0.035274 := convert_ok_inv hl h
    have e2 : r = clamp v * (1000000 / 35274 : ℚ) := by rw [e]; ring
    exact ⟨by linarith, by linarith⟩
  · have hl : conversionFunctions.lookup "LitersToGallons" =
        some (fun l => l * 0.264172) := rfl
    have e : r = clamp v * 0.264172 := convert_ok_inv hl h
    exact ⟨by linarith, by linarith⟩
  · have hl : conversionFunctions.lookup "GallonsToLiters" =
        some (fun gal => gal / 0.264172) := rfl
    have e : r = clamp v / 0.264172 := convert_ok_inv hl h
    have e2 : r = clamp v * (1000000 / 264172 : ℚ) := by rw [e]; ring
    exact ⟨by linarith, by linarith⟩
  · have hl : conversionFunctions.lookup "MillilitersToFluidOunces" =
        some (fun ml => ml * 0.033814) := rfl
    have e : r = clamp v * 0.033814 := convert_ok_inv hl h
    exact ⟨by linarith, by linarith⟩
  · have hl : conversionFunctions.lookup "FluidOuncesToMilliliters" =
        some (fun fl_oz => fl_oz / 0.033814) := rfl
    have e : r = clamp v / 0.033814 := convert_ok_inv hl h
    have e2 : r = clamp v * (1000000 / 33814 : ℚ) := by rw [e]; ring
    exact ⟨by linarith, by linarith⟩

/-- Witness for C8: the bound applied to `convert "CelsiusToKelvin" 0`. -/
theorem convert_result_bounded_witness :
    convert "CelsiusToKelvin" 0 = .ok 273.15 ∧
      -30000000 ≤ (273.15 : ℚ) ∧ (273.15 : ℚ) ≤ 30000000 := by
  have h : convert "CelsiusToKelvin" (0:ℚ) = .ok 273.15 := by
    rw [eval_CelsiusToKelvin 0 (by norm_num), clamp_eq_self (by norm_num) (by norm_num)]
    norm_num
  obtain ⟨a, b⟩ := convert_result_bounded "CelsiusToKelvin" (by decide) 0 273.15 h
  exact ⟨h, a, b⟩

/-- C9: the registry is built once at construction (exactly the 16 fixed
entries, in registration order) and `convert` never mutates the converter:
modelled as a state transformer, every call returns the object unchanged and
computes its result from the same construction-time registry. -/
theorem registry_immutable :
    registeredNames =
      ["CelsiusToFahrenheit", "FahrenheitToCelsius", "CelsiusToKelvin",
       "KelvinToCelsius", "KilometersToMiles", "MilesToKilometers",
       "MetersToFeet", "FeetToMeters", "KilogramsToPounds", "PoundsToKilograms",
       "GramsToOunces", "OuncesToGrams", "LitersToGallons", "GallonsToLiters",
       "MillilitersToFluidOunces", "FluidOuncesToMilliliters"] ∧
    UnitConverter.init.conversionFunctions.length = 16 ∧
    (∀ (c : UnitConverter) (n : String) (v : ℚ), (c.convertM n v).2 = c) ∧
    (∀ (n : String) (v : ℚ), (UnitConverter.init.convertM n v).1 = convert n v) :=
  ⟨rfl, rfl, fun _ _ _ => rfl, fun _ _ => rfl⟩

/-- C10: on the clamp range, `convert` applies the registered formula to the
value itself (the clamp is the identity there and no error is raised), and
`convert` is deterministic. -/
theorem convert_exact_on_clamp_range :
    (∀ (n : String) (f : ℚ → ℚ) (v : ℚ), conversionFunctions.lookup n = some f →
      tempGuard n v = false → distGuard n v = false → weightGuard n v = false →
      volGuard n v = false → -1000000 ≤ v → v ≤ 1000000 →
      convert n v = .ok (f v)) ∧
    (∀ (n : String) (v : ℚ) (r1 r2 : Except String ℚ),
      convert n v = r1 → convert n v = r2 → r1 = r2) := by
  constructor
  · intro n f v hl h1 h2 h3 h4 h5 h6
    rw [convert_ok n f v h1 h2 h3 h4 hl, clamp_eq_self h5 h6]
  · intro n v r1 r2 h1 h2
    rw [← h1, ← h2]

/-- Witness for C10: the exactness conjunct applied to `"MetersToFeet"` at 2. -/
theorem convert_exact_on_clamp_range_witness :
    convert "MetersToFeet" 2 = .ok (2 * 3.28084) :=
  convert_exact_on_clamp_range.1 "MetersToFeet" (fun m => m * 3.28084) 2 rfl
    (tempGuard_false_of_na 2 (by decide)) (distGuard_false_of_nonneg (by norm_num))
    (weightGuard_false_of_na 2 (by decide)) (volGuard_false_of_na 2 (by decide))
    (by norm_num) (by norm_num)

end UnitConv
